import Mathlib

/-!
Shallow embedding of `src/bounty-2/policy.py` (class `BollingerBandsPolicy`).

Python floats / `Decimal` values are modelled as real numbers; the
`collections.deque(maxlen=window)` bounded buffer and the unbounded Python
lists are modelled as Lean lists.  The observation and agent collaborators
(`UniswapV3Observation`, `BaseAgent`) are pure records of functions: the
policy only reads from them, and reading the same observation twice yields
the same value.  `obs.add_signal` mutates the external observation object,
not the policy state, so it is not part of the modelled state.
-/

namespace BollingerPolicy

noncomputable section

/-- The observation collaborator (`UniswapV3Observation`): the methods the
policy calls, as pure functions.  `price t u p` is `obs.price(token=t, unit=u,
pool=p)`. -/
structure Observation where
  pools : List String
  poolTokens : String → String × String
  price : String → String → String → ℝ
  liquidity : String → ℝ

/-- The agent collaborator (`BaseAgent`): `quantity t` is
`agent.quantity(t)`, the current holding of token `t`. -/
structure Agent where
  quantity : String → ℝ

/-- Model of `UniswapV3Trade(agent=..., pool=..., quantities=(x, y))`. -/
structure Trade where
  agent : Agent
  pool : String
  quantities : ℝ × ℝ

/-- The mutable state of a `BollingerBandsPolicy` instance, exactly the
fields set in `__init__` (configuration fields are never reassigned). -/
structure PolicyState where
  pool : String
  window : Nat
  std_dev_multiplier : ℝ
  corr_window : Nat
  direction : Int
  price_window : List ℝ
  price_hist : List ℝ
  liquidity : List ℝ
  upper_band : List ℝ
  lower_band : List ℝ
  correlation_hist : List ℝ

/-- Model of `BollingerBandsPolicy.__init__`. -/
def initPolicy (pool : String) (window : Nat) (std_dev_multiplier : ℝ)
    (corr_window : Nat) (direction : Int) : PolicyState :=
  { pool := pool
    window := window
    std_dev_multiplier := std_dev_multiplier
    corr_window := corr_window
    direction := direction
    price_window := []
    price_hist := []
    liquidity := []
    upper_band := []
    lower_band := []
    correlation_hist := [] }

/-- Python `deque(maxlen=m).append x`: append on the right, evicting from the left
once the capacity `m` is exceeded. -/
def dequeAppend (m : Nat) (xs : List ℝ) (x : ℝ) : List ℝ :=
  let ys := xs ++ [x]
  if m < ys.length then ys.drop (ys.length - m) else ys

/-- Model of `np.mean xs`. -/
def listMean (xs : List ℝ) : ℝ := xs.sum / xs.length

/-- Population variance, as used by `np.std` (default `ddof=0`). -/
def popVariance (xs : List ℝ) : ℝ :=
  ((xs.map fun x => (x - listMean xs) ^ 2).sum) / xs.length

/-- Model of `np.std xs` (population standard deviation, dividing by `N`). -/
def popStd (xs : List ℝ) : ℝ := Real.sqrt (popVariance xs)

/-- Sum of pairwise products of two lists. -/
def dot (xs ys : List ℝ) : ℝ := (List.zipWith (fun a b => a * b) xs ys).sum

/-- Subtract the mean from every element. -/
def demean (xs : List ℝ) : List ℝ := xs.map fun x => x - listMean xs

/-- Model of `np.corrcoef(xs, ys)[0, 1]`: the Pearson correlation coefficient,
centered cross-product over the geometric mean of the centered
self-products (the normalisation factors of `np.cov` cancel). -/
def pearson (xs ys : List ℝ) : ℝ :=
  dot (demean xs) (demean ys) /
    Real.sqrt (dot (demean xs) (demean xs) * dot (demean ys) (demean ys))

/-- The Python slice `xs[-cw:]`: for `cw = 0` this is the whole list
(`xs[0:]`), otherwise the last `cw` elements (all of `xs` when
`cw > len xs`). -/
def sliceLast (cw : Nat) (xs : List ℝ) : List ℝ :=
  if cw = 0 then xs else xs.drop (xs.length - cw)

/-- Model of `BollingerBandsPolicy.calculate_sma`. -/
def calculate_sma (s : PolicyState) : ℝ := listMean s.price_window

/-- Model of `BollingerBandsPolicy.calculate_bollinger_bands`.  Returns the value
`(lower, middle, upper)` together with the updated state (the Python method
mutates `self.upper_band` / `self.lower_band`). -/
def calculate_bollinger_bands (s : PolicyState) :
    (ℝ × ℝ × ℝ) × PolicyState :=
  if s.price_window.length < s.window then ((0, 0, 0), s)
  else
    let middle_band := calculate_sma s
    let std_dev := popStd s.price_window
    let upper_band := middle_band + std_dev * s.std_dev_multiplier
    let lower_band := middle_band - std_dev * s.std_dev_multiplier
    ((lower_band, middle_band, upper_band),
      { s with
        upper_band := s.upper_band ++ [upper_band]
        lower_band := s.lower_band ++ [lower_band] })

/-- Model of `BollingerBandsPolicy.calculate_correlation`.  The `ndim == 1` check of
the source is always true for one-dimensional lists, so only the shape
(length) comparison is modelled. -/
def calculate_correlation (s : PolicyState) : ℝ × PolicyState :=
  if s.corr_window ≤ s.price_hist.length ∧ s.corr_window ≤ s.liquidity.length then
    let prices := sliceLast s.corr_window s.price_hist
    let liq := sliceLast s.corr_window s.liquidity
    if prices.length = liq.length then
      let corr := pearson prices liq
      (corr, { s with correlation_hist := s.correlation_hist ++ [corr] })
    else (0, s)
  else (0, s)

/-- The price extracted by `predict`:
`float(obs.price(token=pool_tokens[0], unit=pool_tokens[1], pool=self.pool))`. -/
def currentPrice (s : PolicyState) (obs : Observation) : ℝ :=
  obs.price (obs.poolTokens s.pool).1 (obs.poolTokens s.pool).2 s.pool

/-- Lines 77-84 (and, identically, 91-98) of `predict`: extract price and
liquidity from the observation and append them to the histories.
`obs.pools[0]` is modelled as `obs.pools.headI` (Python raises `IndexError`
on an empty pool list; all claims concern nonempty observations). -/
def updateHistories (s : PolicyState) (obs : Observation) : PolicyState :=
  let pool := obs.pools.headI
  let price := currentPrice s obs
  { s with
    price_window := dequeAppend s.window s.price_window price
    price_hist := s.price_hist ++ [price]
    liquidity := s.liquidity ++ [obs.liquidity pool] }

/-- One pass of the update-then-compute block that appears twice in
`predict`: update the histories, then run `calculate_bollinger_bands` and
`calculate_correlation`.  Returns `((lower, middle, upper), correlation,
state)`. -/
def stepStats (s : PolicyState) (obs : Observation) :
    (ℝ × ℝ × ℝ) × ℝ × PolicyState :=
  let s1 := updateHistories s obs
  let bb := calculate_bollinger_bands s1
  let corr := calculate_correlation bb.2
  (bb.1, corr.1, corr.2)

/-- The statistics in scope when `predict` reaches its decision code: the
update/compute block runs twice (the source duplicates lines 77-89 as lines
91-103), and the decision reads the values bound by the second pass. -/
def decisionStats (s : PolicyState) (obs : Observation) :
    (ℝ × ℝ × ℝ) × ℝ × PolicyState :=
  stepStats (stepStats s obs).2.2 obs

/-- Model of `BollingerBandsPolicy.predict`.  Returns the state after the call (the
Python method mutates `self`) together with the returned action list.  The
observation is pure, so the duplicated extraction of `pool`, `pool_tokens`
and `price` yields the same values both times; `Decimal("0.3")` is exactly
`0.3`. -/
def predict (s : PolicyState) (agent : Agent) (obs : Observation) :
    PolicyState × List Trade :=
  let r := decisionStats s obs
  let lower_band := r.1.1
  let upper_band := r.1.2.2
  let correlation := r.2.1
  let s2 := r.2.2
  let pool_tokens := obs.poolTokens s.pool
  let price := currentPrice s obs
  if s2.price_window.length < s2.window then (s2, [])
  else
    let actions1 : List Trade :=
      if 0 ≤ s.direction ∧ price < lower_band ∧ correlation < -0.5 then
        [{ agent := agent, pool := s.pool,
           quantities := (0, agent.quantity pool_tokens.2 * 0.3) }]
      else []
    let actions2 : List Trade :=
      if s.direction ≤ 0 ∧ upper_band < price ∧ correlation < -0.5 then
        [{ agent := agent, pool := s.pool,
           quantities := (agent.quantity pool_tokens.1 * 0.3, 0) }]
      else []
    (s2, actions1 ++ actions2)

/-- The external backtest runner: it calls `predict` once per observation,
strictly sequentially, threading the policy state. -/
def runPolicy (s : PolicyState) (agent : Agent)
    (obsL : List Observation) : PolicyState :=
  obsL.foldl (fun st obs => (predict st agent obs).1) s

/-! ### Frame lemmas: which state fields each operation touches -/

@[simp] lemma bb_pool (s : PolicyState) :
    (calculate_bollinger_bands s).2.pool = s.pool := by
  simp only [calculate_bollinger_bands]; split <;> rfl

@[simp] lemma bb_window (s : PolicyState) :
    (calculate_bollinger_bands s).2.window = s.window := by
  simp only [calculate_bollinger_bands]; split <;> rfl

@[simp] lemma bb_corr_window (s : PolicyState) :
    (calculate_bollinger_bands s).2.corr_window = s.corr_window := by
  simp only [calculate_bollinger_bands]; split <;> rfl

@[simp] lemma bb_price_window (s : PolicyState) :
    (calculate_bollinger_bands s).2.price_window = s.price_window := by
  simp only [calculate_bollinger_bands]; split <;> rfl

@[simp] lemma bb_price_hist (s : PolicyState) :
    (calculate_bollinger_bands s).2.price_hist = s.price_hist := by
  simp only [calculate_bollinger_bands]; split <;> rfl

@[simp] lemma bb_liquidity (s : PolicyState) :
    (calculate_bollinger_bands s).2.liquidity = s.liquidity := by
  simp only [calculate_bollinger_bands]; split <;> rfl

@[simp] lemma corr_pool (s : PolicyState) :
    (calculate_correlation s).2.pool = s.pool := by
  simp only [calculate_correlation]
  split
  · split <;> rfl
  · rfl

@[simp] lemma corr_window_field (s : PolicyState) :
    (calculate_correlation s).2.window = s.window := by
  simp only [calculate_correlation]
  split
  · split <;> rfl
  · rfl

@[simp] lemma corr_corr_window (s : PolicyState) :
    (calculate_correlation s).2.corr_window = s.corr_window := by
  simp only [calculate_correlation]
  split
  · split <;> rfl
  · rfl

@[simp] lemma corr_price_window (s : PolicyState) :
    (calculate_correlation s).2.price_window = s.price_window := by
  simp only [calculate_correlation]
  split
  · split <;> rfl
  · rfl

@[simp] lemma corr_price_hist (s : PolicyState) :
    (calculate_correlation s).2.price_hist = s.price_hist := by
  simp only [calculate_correlation]
  split
  · split <;> rfl
  · rfl

@[simp] lemma corr_liquidity (s : PolicyState) :
    (calculate_correlation s).2.liquidity = s.liquidity := by
  simp only [calculate_correlation]
  split
  · split <;> rfl
  · rfl

@[simp] lemma upd_pool (s : PolicyState) (obs : Observation) :
    (updateHistories s obs).pool = s.pool := rfl

@[simp] lemma upd_window (s : PolicyState) (obs : Observation) :
    (updateHistories s obs).window = s.window := rfl

@[simp] lemma upd_corr_window (s : PolicyState) (obs : Observation) :
    (updateHistories s obs).corr_window = s.corr_window := rfl

@[simp] lemma upd_price_window (s : PolicyState) (obs : Observation) :
    (updateHistories s obs).price_window
      = dequeAppend s.window s.price_window (currentPrice s obs) := rfl

@[simp] lemma upd_price_hist (s : PolicyState) (obs : Observation) :
    (updateHistories s obs).price_hist = s.price_hist ++ [currentPrice s obs] := rfl

@[simp] lemma upd_liquidity (s : PolicyState) (obs : Observation) :
    (updateHistories s obs).liquidity
      = s.liquidity ++ [obs.liquidity obs.pools.headI] := rfl

lemma currentPrice_pool_congr {s t : PolicyState} (obs : Observation)
    (h : s.pool = t.pool) : currentPrice s obs = currentPrice t obs := by
  simp only [currentPrice, h]

/-- The state returned by `predict` is the decision-time state, in both the
warm-up branch and the trading branch. -/
lemma predict_fst (s : PolicyState) (agent : Agent) (obs : Observation) :
    (predict s agent obs).1 = (decisionStats s obs).2.2 := by
  simp only [predict]
  split <;> rfl

@[simp] lemma stepStats_pool (s : PolicyState) (obs : Observation) :
    (stepStats s obs).2.2.pool = s.pool := by
  simp only [stepStats, corr_pool, bb_pool, upd_pool]

@[simp] lemma stepStats_window (s : PolicyState) (obs : Observation) :
    (stepStats s obs).2.2.window = s.window := by
  simp only [stepStats, corr_window_field, bb_window, upd_window]

@[simp] lemma stepStats_corr_window (s : PolicyState) (obs : Observation) :
    (stepStats s obs).2.2.corr_window = s.corr_window := by
  simp only [stepStats, corr_corr_window, bb_corr_window, upd_corr_window]

@[simp] lemma stepStats_price_window (s : PolicyState) (obs : Observation) :
    (stepStats s obs).2.2.price_window
      = dequeAppend s.window s.price_window (currentPrice s obs) := by
  simp only [stepStats, corr_price_window, bb_price_window, upd_price_window]

@[simp] lemma stepStats_price_hist (s : PolicyState) (obs : Observation) :
    (stepStats s obs).2.2.price_hist = s.price_hist ++ [currentPrice s obs] := by
  simp only [stepStats, corr_price_hist, bb_price_hist, upd_price_hist]

@[simp] lemma stepStats_liquidity (s : PolicyState) (obs : Observation) :
    (stepStats s obs).2.2.liquidity
      = s.liquidity ++ [obs.liquidity obs.pools.headI] := by
  simp only [stepStats, corr_liquidity, bb_liquidity, upd_liquidity]

@[simp] lemma decisionStats_window (s : PolicyState) (obs : Observation) :
    (decisionStats s obs).2.2.window = s.window := by
  simp only [decisionStats, stepStats_window]

lemma decisionStats_price_window (s : PolicyState) (obs : Observation) :
    (decisionStats s obs).2.2.price_window
      = dequeAppend s.window
          (dequeAppend s.window s.price_window (currentPrice s obs))
          (currentPrice s obs) := by
  simp only [decisionStats, stepStats_price_window, stepStats_window]
  rw [currentPrice_pool_congr obs (stepStats_pool s obs)]

lemma decisionStats_price_hist (s : PolicyState) (obs : Observation) :
    (decisionStats s obs).2.2.price_hist
      = s.price_hist ++ [currentPrice s obs, currentPrice s obs] := by
  simp only [decisionStats, stepStats_price_hist]
  rw [currentPrice_pool_congr obs (stepStats_pool s obs), List.append_assoc]
  rfl

lemma decisionStats_liquidity (s : PolicyState) (obs : Observation) :
    (decisionStats s obs).2.2.liquidity
      = s.liquidity ++ [obs.liquidity obs.pools.headI, obs.liquidity obs.pools.headI] := by
  simp only [decisionStats, stepStats_liquidity]
  rw [List.append_assoc]
  rfl

/-- Length of a bounded-buffer append. -/
lemma dequeAppend_length (m : Nat) (xs : List ℝ) (x : ℝ) :
    (dequeAppend m xs x).length = min (xs.length + 1) m := by
  simp only [dequeAppend, List.length_append, List.length_cons, List.length_nil]
  split
  · rename_i h
    simp only [List.length_drop, List.length_append, List.length_cons, List.length_nil]
    omega
  · rename_i h
    simp only [List.length_append, List.length_cons, List.length_nil]
    omega

lemma predict_price_window_length (s : PolicyState) (agent : Agent) (obs : Observation) :
    (predict s agent obs).1.price_window.length
      = min (s.price_window.length + 2) s.window := by
  rw [predict_fst, decisionStats_price_window, dequeAppend_length, dequeAppend_length]
  omega

lemma predict_window (s : PolicyState) (agent : Agent) (obs : Observation) :
    (predict s agent obs).1.window = s.window := by
  rw [predict_fst, decisionStats_window]

lemma predict_price_hist (s : PolicyState) (agent : Agent) (obs : Observation) :
    (predict s agent obs).1.price_hist
      = s.price_hist ++ [currentPrice s obs, currentPrice s obs] := by
  rw [predict_fst, decisionStats_price_hist]

lemma predict_liquidity (s : PolicyState) (agent : Agent) (obs : Observation) :
    (predict s agent obs).1.liquidity
      = s.liquidity ++ [obs.liquidity obs.pools.headI, obs.liquidity obs.pools.headI] := by
  rw [predict_fst, decisionStats_liquidity]

/-! ### The sequential run -/

@[simp] lemma runPolicy_nil (s : PolicyState) (agent : Agent) :
    runPolicy s agent [] = s := rfl

@[simp] lemma runPolicy_cons (s : PolicyState) (agent : Agent)
    (o : Observation) (L : List Observation) :
    runPolicy s agent (o :: L) = runPolicy (predict s agent o).1 agent L := rfl

lemma runPolicy_window (agent : Agent) (obsL : List Observation) :
    ∀ s : PolicyState, (runPolicy s agent obsL).window = s.window := by
  induction obsL with
  | nil => intro s; rfl
  | cons o L ih => intro s; rw [runPolicy_cons, ih, predict_window]

lemma runPolicy_price_hist_length (agent : Agent) (obsL : List Observation) :
    ∀ s : PolicyState,
      (runPolicy s agent obsL).price_hist.length
        = s.price_hist.length + 2 * obsL.length := by
  induction obsL with
  | nil => intro s; simp
  | cons o L ih =>
    intro s
    rw [runPolicy_cons, ih, predict_price_hist]
    simp only [List.length_append, List.length_cons, List.length_nil]
    omega

lemma runPolicy_liquidity_length (agent : Agent) (obsL : List Observation) :
    ∀ s : PolicyState,
      (runPolicy s agent obsL).liquidity.length
        = s.liquidity.length + 2 * obsL.length := by
  induction obsL with
  | nil => intro s; simp
  | cons o L ih =>
    intro s
    rw [runPolicy_cons, ih, predict_liquidity]
    simp only [List.length_append, List.length_cons, List.length_nil]
    omega

lemma runPolicy_price_window_length (agent : Agent) (obsL : List Observation) :
    ∀ s : PolicyState, s.price_window.length ≤ s.window →
      (runPolicy s agent obsL).price_window.length
        = min (s.price_window.length + 2 * obsL.length) s.window := by
  induction obsL with
  | nil => intro s h; simp; omega
  | cons o L ih =>
    intro s h
    rw [runPolicy_cons,
        ih _ (by rw [predict_price_window_length, predict_window]; omega),
        predict_price_window_length, predict_window]
    simp only [List.length_cons]
    omega

/-- C3: lock-step histories: starting from a freshly constructed policy,
after every completed call to `predict` (i.e. after running the policy on any
observation sequence), `price_hist` and `liquidity` have the same length. -/
theorem histories_lockstep (pool : String) (w : Nat) (m : ℝ) (cw : Nat)
    (d : Int) (agent : Agent) (obsL : List Observation) :
    (runPolicy (initPolicy pool w m cw d) agent obsL).price_hist.length
      = (runPolicy (initPolicy pool w m cw d) agent obsL).liquidity.length := by
  rw [runPolicy_price_hist_length, runPolicy_liquidity_length]
  rfl

/-- C4: window bound: over every sequence of `predict` calls from a fresh
policy, the bounded price window never exceeds `window`; and once at least
`window` prices have been appended (the number of appended prices being
`price_hist.length`), the window length equals exactly `window` — and this
holds for every longer run as well, so the warm-up-to-ready transition is
one-way. -/
theorem price_window_bound (pool : String) (w : Nat) (m : ℝ) (cw : Nat)
    (d : Int) (agent : Agent) (obsL : List Observation) :
    (runPolicy (initPolicy pool w m cw d) agent obsL).price_window.length ≤ w ∧
    (w ≤ (runPolicy (initPolicy pool w m cw d) agent obsL).price_hist.length →
      (runPolicy (initPolicy pool w m cw d) agent obsL).price_window.length = w) := by
  have hw := runPolicy_price_window_length agent obsL (initPolicy pool w m cw d)
    (by simp [initPolicy])
  have hh := runPolicy_price_hist_length agent obsL (initPolicy pool w m cw d)
  constructor
  · rw [hw]
    simp only [initPolicy, List.length_nil]
    omega
  · intro h
    rw [hh] at h
    rw [hw]
    simp only [initPolicy, List.length_nil] at h ⊢
    omega

/-- A trivial observation/agent pair used to instantiate hypotheses of the
universally quantified theorems at a concrete input. -/
def wObs : Observation :=
  { pools := ["P"]
    poolTokens := fun _ => ("T0", "T1")
    price := fun _ _ _ => 1
    liquidity := fun _ => 1 }

def wAgent : Agent := { quantity := fun _ => 1 }

/-- Witness for `price_window_bound`: with `window = 2`, a single call
appends two prices, so the window is already full. -/
theorem price_window_bound_witness :
    (runPolicy (initPolicy "P" 2 2 2 0) wAgent [wObs]).price_window.length = 2 :=
  (price_window_bound "P" 2 2 2 0 wAgent [wObs]).2
    (by rw [runPolicy_price_hist_length]; simp [initPolicy])

/-! ### Bollinger bands and correlation -/

/-- C5: `calculate_bollinger_bands` returns the `(0, 0, 0)` sentinel and
leaves the state (in particular the diagnostic band histories) unchanged when
the window holds fewer than `window` elements; otherwise it returns
`(middle - k * std, middle, middle + k * std)` with `middle` the arithmetic
mean and `std` the population standard deviation of the window, appending the
upper and lower values to their histories exactly once, and
`lower < middle < upper` whenever the (positively configured) multiplier and
the standard deviation are positive. -/
theorem bollinger_bands_spec (s : PolicyState) :
    (s.price_window.length < s.window →
      calculate_bollinger_bands s = ((0, 0, 0), s)) ∧
    (s.window ≤ s.price_window.length →
      calculate_bollinger_bands s =
        ((listMean s.price_window - popStd s.price_window * s.std_dev_multiplier,
          listMean s.price_window,
          listMean s.price_window + popStd s.price_window * s.std_dev_multiplier),
         { s with
            upper_band := s.upper_band
              ++ [listMean s.price_window + popStd s.price_window * s.std_dev_multiplier]
            lower_band := s.lower_band
              ++ [listMean s.price_window - popStd s.price_window * s.std_dev_multiplier] }) ∧
      (0 < s.std_dev_multiplier → 0 < popStd s.price_window →
        listMean s.price_window - popStd s.price_window * s.std_dev_multiplier
            < listMean s.price_window ∧
        listMean s.price_window
            < listMean s.price_window + popStd s.price_window * s.std_dev_multiplier)) := by
  constructor
  · intro h
    simp only [calculate_bollinger_bands, if_pos h]
  · intro h
    refine ⟨?_, ?_⟩
    · simp only [calculate_bollinger_bands, calculate_sma, if_neg (not_lt.mpr h)]
    · intro hk hs
      have hpos : 0 < popStd s.price_window * s.std_dev_multiplier := mul_pos hs hk
      exact ⟨by linarith, by linarith⟩

def s5short : PolicyState :=
  { pool := "P", window := 2, std_dev_multiplier := 2, corr_window := 2,
    direction := 0, price_window := [1], price_hist := [1], liquidity := [1],
    upper_band := [], lower_band := [], correlation_hist := [] }

def s5full : PolicyState :=
  { pool := "P", window := 2, std_dev_multiplier := 2, corr_window := 2,
    direction := 0, price_window := [1, 3], price_hist := [1, 3],
    liquidity := [1, 1], upper_band := [], lower_band := [],
    correlation_hist := [] }

lemma s5full_mean : listMean s5full.price_window = 2 := by
  simp [s5full, listMean]
  norm_num

lemma s5full_std : popStd s5full.price_window = 1 := by
  have hvar : popVariance s5full.price_window = 1 := by
    simp [s5full, popVariance, listMean]
    norm_num
  rw [popStd, hvar, Real.sqrt_one]

/-- Witness for `bollinger_bands_spec`: the sentinel branch on a one-element
window, and the computed branch (with its ordering) on the window `[1, 3]`
(mean `2`, standard deviation `1`, multiplier `2`). -/
theorem bollinger_bands_spec_witness :
    calculate_bollinger_bands s5short = ((0, 0, 0), s5short) ∧
    calculate_bollinger_bands s5full
      = ((0, 2, 4), { s5full with upper_band := [4], lower_band := [0] }) ∧
    (listMean s5full.price_window
        - popStd s5full.price_window * s5full.std_dev_multiplier
      < listMean s5full.price_window ∧
     listMean s5full.price_window
      < listMean s5full.price_window
          + popStd s5full.price_window * s5full.std_dev_multiplier) := by
  refine ⟨(bollinger_bands_spec s5short).1 (by decide), ?_, ?_⟩
  · have h2 := ((bollinger_bands_spec s5full).2 (by decide)).1
    rw [h2, s5full_mean, s5full_std]
    norm_num [s5full]
  · exact ((bollinger_bands_spec s5full).2 (by decide)).2 (by norm_num [s5full])
      (by rw [s5full_std]; norm_num)

/-- C6: `calculate_correlation` returns the default `0` and leaves the
correlation history (indeed the whole state) unchanged whenever either
history is shorter than `corr_window`; otherwise it returns the Pearson
coefficient of the last `corr_window` elements of the two histories and
appends that value to the correlation history exactly once.  The hypothesis
`0 < corr_window` is the configuration-surface constraint (positive integer
window). -/
theorem correlation_spec (s : PolicyState) (hcw : 0 < s.corr_window) :
    ((s.price_hist.length < s.corr_window ∨ s.liquidity.length < s.corr_window) →
      calculate_correlation s = (0, s)) ∧
    (s.corr_window ≤ s.price_hist.length → s.corr_window ≤ s.liquidity.length →
      calculate_correlation s =
        (pearson (sliceLast s.corr_window s.price_hist)
                 (sliceLast s.corr_window s.liquidity),
         { s with correlation_hist := s.correlation_hist
            ++ [pearson (sliceLast s.corr_window s.price_hist)
                        (sliceLast s.corr_window s.liquidity)] })) := by
  constructor
  · intro h
    have hno : ¬ (s.corr_window ≤ s.price_hist.length ∧
        s.corr_window ≤ s.liquidity.length) := by omega
    simp only [calculate_correlation, if_neg hno]
  · intro h1 h2
    have hcw0 : ¬ s.corr_window = 0 := by omega
    have hlen1 : (sliceLast s.corr_window s.price_hist).length = s.corr_window := by
      simp only [sliceLast, if_neg hcw0, List.length_drop]
      omega
    have hlen2 : (sliceLast s.corr_window s.liquidity).length = s.corr_window := by
      simp only [sliceLast, if_neg hcw0, List.length_drop]
      omega
    simp only [calculate_correlation, if_pos (And.intro h1 h2),
      if_pos (hlen1.trans hlen2.symm)]

def s6short : PolicyState :=
  { pool := "P", window := 2, std_dev_multiplier := 2, corr_window := 2,
    direction := 0, price_window := [1], price_hist := [1], liquidity := [1],
    upper_band := [], lower_band := [], correlation_hist := [] }

def s6full : PolicyState :=
  { pool := "P", window := 2, std_dev_multiplier := 2, corr_window := 2,
    direction := 0, price_window := [0, 2], price_hist := [0, 2],
    liquidity := [2, 0], upper_band := [], lower_band := [],
    correlation_hist := [] }

lemma pearson_02_20 : pearson [(0 : ℝ), 2] [(2 : ℝ), 0] = -1 := by
  have hm1 : listMean [(0 : ℝ), 2] = 1 := by norm_num [listMean]
  have hm2 : listMean [(2 : ℝ), 0] = 1 := by norm_num [listMean]
  simp only [pearson, demean, dot, hm1, hm2, List.map_cons, List.map_nil,
    List.zipWith_cons_cons, List.zipWith_nil_left, List.zipWith_nil_right,
    List.sum_cons, List.sum_nil]
  rw [show ((0 : ℝ) - 1) * (0 - 1) + ((2 - 1) * (2 - 1) + 0) = 2 by norm_num,
      show ((2 : ℝ) - 1) * (2 - 1) + ((0 - 1) * (0 - 1) + 0) = 2 by norm_num,
      show ((2 : ℝ) * 2) = 2 * 2 by norm_num, Real.sqrt_mul_self (by norm_num : (0 : ℝ) ≤ 2)]
  norm_num

/-- Witness for `correlation_spec`: the default branch on one-element
histories, and the computed branch on histories `[0, 2]` / `[2, 0]` (which
are perfectly anticorrelated, coefficient `-1`). -/
theorem correlation_spec_witness :
    calculate_correlation s6short = (0, s6short) ∧
    calculate_correlation s6full = (-1, { s6full with correlation_hist := [-1] }) := by
  constructor
  · exact (correlation_spec s6short (by decide)).1 (Or.inl (by decide))
  · have h := (correlation_spec s6full (by decide)).2 (by decide) (by decide)
    rw [h]
    have hs1 : sliceLast s6full.corr_window s6full.price_hist = [(0 : ℝ), 2] := rfl
    have hs2 : sliceLast s6full.corr_window s6full.liquidity = [(2 : ℝ), 0] := rfl
    rw [hs1, hs2, pearson_02_20]
    norm_num [s6full]

/-! ### The decision rules of `predict` -/

/-- During warm-up (window not yet full at decision time) `predict` returns
the empty action list. -/
lemma predict_empty_of_not_full (s : PolicyState) (agent : Agent)
    (obs : Observation)
    (h : (decisionStats s obs).2.2.price_window.length < s.window) :
    (predict s agent obs).2 = [] := by
  simp only [predict, decisionStats_window]
  rw [if_pos h]

/-- Once the window is full at decision time, `predict` returns the
concatenation of the (possibly empty) buy and sell singleton lists. -/
lemma predict_eq_of_full (s : PolicyState) (agent : Agent) (obs : Observation)
    (hfull : s.window ≤ (decisionStats s obs).2.2.price_window.length) :
    (predict s agent obs).2 =
      (if 0 ≤ s.direction ∧ currentPrice s obs < (decisionStats s obs).1.1 ∧
            (decisionStats s obs).2.1 < -0.5 then
        [{ agent := agent, pool := s.pool,
           quantities := (0, agent.quantity (obs.poolTokens s.pool).2 * 0.3) }]
      else []) ++
      (if s.direction ≤ 0 ∧ (decisionStats s obs).1.2.2 < currentPrice s obs ∧
            (decisionStats s obs).2.1 < -0.5 then
        [{ agent := agent, pool := s.pool,
           quantities := (agent.quantity (obs.poolTokens s.pool).1 * 0.3, 0) }]
      else []) := by
  simp only [predict, decisionStats_window]
  rw [if_neg (not_lt.mpr hfull)]

/-- C7: long-entry rule: when the window is full at decision time, the
direction permits long trades (`0 ≤ direction`), the current price is
strictly below the lower band and the correlation is strictly below `-0.5`,
`predict` emits a buy intent with zero token0 leg and token1 leg equal to
30% of the agent's token1 holding; and when the direction is short-only
(`-1`), no buy intent (nonzero token1 leg) is ever emitted. -/
theorem long_entry_rule (s : PolicyState) (agent : Agent) (obs : Observation) :
    (s.window ≤ (decisionStats s obs).2.2.price_window.length →
     0 ≤ s.direction →
     currentPrice s obs < (decisionStats s obs).1.1 →
     (decisionStats s obs).2.1 < -0.5 →
     ({ agent := agent, pool := s.pool,
        quantities := (0, agent.quantity (obs.poolTokens s.pool).2 * 0.3) } : Trade)
       ∈ (predict s agent obs).2) ∧
    (s.direction = -1 →
     ∀ t ∈ (predict s agent obs).2, t.quantities.2 = 0) := by
  constructor
  · intro hfull hdir hp hc
    rw [predict_eq_of_full s agent obs hfull, if_pos ⟨hdir, hp, hc⟩]
    exact List.mem_append_left _ (List.mem_singleton_self _)
  · intro hdir t ht
    by_cases hfull : (decisionStats s obs).2.2.price_window.length < s.window
    · rw [predict_empty_of_not_full s agent obs hfull] at ht
      simp at ht
    · rw [predict_eq_of_full s agent obs (not_lt.mp hfull)] at ht
      rw [if_neg (fun hcon => by rw [hdir] at hcon; exact absurd hcon.1 (by decide))] at ht
      simp only [List.nil_append] at ht
      split at ht
      · rw [List.mem_singleton] at ht
        rw [ht]
      · simp at ht

/-- C8 (amended): every trade returned by `predict` is either a buy with
zero token0 leg and token1 leg `0.3 * holding(token1)`, or a sell with zero
token1 leg and token0 leg `0.3 * holding(token0)`; each is nonzero exactly
when the corresponding holding is nonzero. -/
theorem trade_legs_shape (s : PolicyState) (agent : Agent) (obs : Observation) :
    ∀ t ∈ (predict s agent obs).2,
      (t.quantities.1 = 0 ∧
        t.quantities.2 = agent.quantity (obs.poolTokens s.pool).2 * 0.3) ∨
      (t.quantities.2 = 0 ∧
        t.quantities.1 = agent.quantity (obs.poolTokens s.pool).1 * 0.3) := by
  intro t ht
  by_cases hfull : (decisionStats s obs).2.2.price_window.length < s.window
  · rw [predict_empty_of_not_full s agent obs hfull] at ht
    simp at ht
  · rw [predict_eq_of_full s agent obs (not_lt.mp hfull), List.mem_append] at ht
    rcases ht with h | h
    · split at h
      · rw [List.mem_singleton] at h
        subst h
        exact Or.inl ⟨rfl, rfl⟩
      · simp at h
    · split at h
      · rw [List.mem_singleton] at h
        subst h
        exact Or.inr ⟨rfl, rfl⟩
      · simp at h

/-! ### Concrete decision scenarios -/

/-- Observation with price `0` and liquidity `5`. -/
def obsLow : Observation :=
  { pools := ["P"]
    poolTokens := fun _ => ("T0", "T1")
    price := fun _ _ _ => 0
    liquidity := fun _ => 5 }

/-- Observation with price `4` and liquidity `1`. -/
def obsHigh4 : Observation :=
  { pools := ["P"]
    poolTokens := fun _ => ("T0", "T1")
    price := fun _ _ _ => 4
    liquidity := fun _ => 1 }

def agent10 : Agent := { quantity := fun _ => 10 }

def agent0 : Agent := { quantity := fun _ => 0 }

lemma mean_4400 : listMean [(4 : ℝ), 4, 0, 0] = 2 := by
  norm_num [listMean]

lemma std_4400 : popStd [(4 : ℝ), 4, 0, 0] = 2 := by
  have h : popVariance [(4 : ℝ), 4, 0, 0] = 4 := by
    norm_num [popVariance, listMean]
  rw [popStd, h, show (4 : ℝ) = 2 ^ 2 by norm_num,
      Real.sqrt_sq (by norm_num : (0 : ℝ) ≤ 2)]

lemma pearson_4400 : pearson [(4 : ℝ), 4, 0, 0] [(1 : ℝ), 1, 5, 5] = -1 := by
  have hm2 : listMean [(1 : ℝ), 1, 5, 5] = 3 := by norm_num [listMean]
  have hxy : dot (demean [(4 : ℝ), 4, 0, 0]) (demean [(1 : ℝ), 1, 5, 5]) = -16 := by
    simp only [demean, dot, mean_4400, hm2, List.map_cons, List.map_nil,
      List.zipWith_cons_cons, List.zipWith_nil_right, List.sum_cons, List.sum_nil]
    norm_num
  have hxx : dot (demean [(4 : ℝ), 4, 0, 0]) (demean [(4 : ℝ), 4, 0, 0]) = 16 := by
    simp only [demean, dot, mean_4400, List.map_cons, List.map_nil,
      List.zipWith_cons_cons, List.zipWith_nil_right, List.sum_cons, List.sum_nil]
    norm_num
  have hyy : dot (demean [(1 : ℝ), 1, 5, 5]) (demean [(1 : ℝ), 1, 5, 5]) = 16 := by
    simp only [demean, dot, hm2, List.map_cons, List.map_nil,
      List.zipWith_cons_cons, List.zipWith_nil_right, List.sum_cons, List.sum_nil]
    norm_num
  rw [pearson, hxy, hxx, hyy, show (16 : ℝ) * 16 = 16 ^ 2 by norm_num,
      Real.sqrt_sq (by norm_num : (0 : ℝ) ≤ 16)]
  norm_num

/-- Mid-run state with `window = corr_window = 4`, multiplier `1/2`,
direction `0`, and two prices/liquidities already recorded. -/
def s7 : PolicyState :=
  { pool := "P", window := 4, std_dev_multiplier := 1 / 2, corr_window := 4,
    direction := 0, price_window := [4, 4], price_hist := [4, 4],
    liquidity := [1, 1], upper_band := [], lower_band := [],
    correlation_hist := [] }

def s7a : PolicyState :=
  { pool := "P", window := 4, std_dev_multiplier := 1 / 2, corr_window := 4,
    direction := 0, price_window := [4, 4, 0], price_hist := [4, 4, 0],
    liquidity := [1, 1, 5], upper_band := [], lower_band := [],
    correlation_hist := [] }

def s7b : PolicyState :=
  { pool := "P", window := 4, std_dev_multiplier := 1 / 2, corr_window := 4,
    direction := 0, price_window := [4, 4, 0, 0], price_hist := [4, 4, 0, 0],
    liquidity := [1, 1, 5, 5], upper_band := [], lower_band := [],
    correlation_hist := [] }

def s7c : PolicyState :=
  { pool := "P", window := 4, std_dev_multiplier := 1 / 2, corr_window := 4,
    direction := 0, price_window := [4, 4, 0, 0], price_hist := [4, 4, 0, 0],
    liquidity := [1, 1, 5, 5], upper_band := [3], lower_band := [1],
    correlation_hist := [] }

def s7d : PolicyState :=
  { pool := "P", window := 4, std_dev_multiplier := 1 / 2, corr_window := 4,
    direction := 0, price_window := [4, 4, 0, 0], price_hist := [4, 4, 0, 0],
    liquidity := [1, 1, 5, 5], upper_band := [3], lower_band := [1],
    correlation_hist := [-1] }

lemma bb_s7b : calculate_bollinger_bands s7b = ((1, 2, 3), s7c) := by
  have hm : listMean s7b.price_window = 2 := mean_4400
  have hs : popStd s7b.price_window = 2 := std_4400
  simp only [calculate_bollinger_bands, calculate_sma]
  rw [if_neg (by decide), hm, hs]
  norm_num [s7b, s7c]

lemma corr_s7c : calculate_correlation s7c = (-1, s7d) := by
  have hsl1 : sliceLast s7c.corr_window s7c.price_hist = [(4 : ℝ), 4, 0, 0] := rfl
  have hsl2 : sliceLast s7c.corr_window s7c.liquidity = [(1 : ℝ), 1, 5, 5] := rfl
  simp only [calculate_correlation]
  rw [if_pos (by decide), if_pos (by decide), hsl1, hsl2, pearson_4400]
  norm_num [s7c, s7d]

lemma decisionStats_s7 : decisionStats s7 obsLow = ((1, 2, 3), -1, s7d) := by
  have h1 : stepStats s7 obsLow = ((0, 0, 0), 0, s7a) := rfl
  have hup : updateHistories s7a obsLow = s7b := rfl
  have h2 : stepStats s7a obsLow = ((1, 2, 3), -1, s7d) := by
    simp only [stepStats, hup, bb_s7b, corr_s7c]
  simp only [decisionStats, h1]
  exact h2

lemma s7_full : s7.window ≤ (decisionStats s7 obsLow).2.2.price_window.length := by
  rw [decisionStats_s7]
  decide

lemma s7_price_lt_lower : currentPrice s7 obsLow < (decisionStats s7 obsLow).1.1 := by
  rw [decisionStats_s7]
  show (0 : ℝ) < 1
  norm_num

lemma s7_corr_lt : (decisionStats s7 obsLow).2.1 < -0.5 := by
  rw [decisionStats_s7]
  show (-1 : ℝ) < -0.5
  norm_num

lemma s7_not_upper : ¬ ((decisionStats s7 obsLow).1.2.2 < currentPrice s7 obsLow) := by
  rw [decisionStats_s7]
  show ¬ ((3 : ℝ) < 0)
  norm_num

/-- State `s7` with direction short-only. -/
def s7neg : PolicyState :=
  { pool := "P", window := 4, std_dev_multiplier := 1 / 2, corr_window := 4,
    direction := -1, price_window := [4, 4], price_hist := [4, 4],
    liquidity := [1, 1], upper_band := [], lower_band := [],
    correlation_hist := [] }

/-- Witness for `long_entry_rule`: at `s7` with observation price `0`
(below the lower band `1`, correlation `-1`) the buy intent is emitted, and
with direction `-1` every returned trade has a zero token1 leg. -/
theorem long_entry_rule_witness :
    ({ agent := agent10, pool := "P",
       quantities := ((0 : ℝ), agent10.quantity "T1" * 0.3) } : Trade)
      ∈ (predict s7 agent10 obsLow).2 ∧
    List.Forall (fun t : Trade => t.quantities.2 = 0)
      (predict s7neg agent10 obsLow).2 :=
  ⟨(long_entry_rule s7 agent10 obsLow).1 s7_full (by decide)
      s7_price_lt_lower s7_corr_lt,
   List.forall_iff_forall_mem.mpr ((long_entry_rule s7neg agent10 obsLow).2 rfl)⟩

lemma predict_s7_agent10 :
    (predict s7 agent10 obsLow).2 =
      [{ agent := agent10, pool := "P",
         quantities := (0, agent10.quantity "T1" * 0.3) }] := by
  rw [predict_eq_of_full s7 agent10 obsLow s7_full,
      if_pos ⟨by decide, s7_price_lt_lower, s7_corr_lt⟩,
      if_neg (fun hcon => s7_not_upper hcon.2.1)]
  simp [s7, obsLow]

lemma predict_s7_agent0 :
    (predict s7 agent0 obsLow).2 =
      [{ agent := agent0, pool := "P", quantities := ((0 : ℝ), 0) }] := by
  rw [predict_eq_of_full s7 agent0 obsLow s7_full,
      if_pos ⟨by decide, s7_price_lt_lower, s7_corr_lt⟩,
      if_neg (fun hcon => s7_not_upper hcon.2.1)]
  norm_num [agent0, s7, obsLow]

/-- Counterexample for C8 as stated: with a zero token1 holding, the
fired buy rule emits a trade whose two legs are both zero — no leg is
nonzero. -/
theorem trade_both_legs_zero :
    ({ agent := agent0, pool := "P", quantities := ((0 : ℝ), 0) } : Trade)
      ∈ (predict s7 agent0 obsLow).2 := by
  rw [predict_s7_agent0]
  exact List.mem_singleton_self _

/-- Witness for `trade_legs_shape`, applied to the buy intent emitted at
`s7`. -/
theorem trade_legs_shape_witness :
    (({ agent := agent10, pool := "P",
        quantities := ((0 : ℝ), agent10.quantity "T1" * 0.3) } : Trade).quantities.1 = 0 ∧
     ({ agent := agent10, pool := "P",
        quantities := ((0 : ℝ), agent10.quantity "T1" * 0.3) } : Trade).quantities.2
        = agent10.quantity (obsLow.poolTokens s7.pool).2 * 0.3) ∨
    (({ agent := agent10, pool := "P",
        quantities := ((0 : ℝ), agent10.quantity "T1" * 0.3) } : Trade).quantities.2 = 0 ∧
     ({ agent := agent10, pool := "P",
        quantities := ((0 : ℝ), agent10.quantity "T1" * 0.3) } : Trade).quantities.1
        = agent10.quantity (obsLow.poolTokens s7.pool).1 * 0.3) :=
  trade_legs_shape s7 agent10 obsLow _
    (by rw [predict_s7_agent10]; exact List.mem_singleton_self _)

/-! ### Both rules firing in one step (C9) -/

/-- Reachable state: one `predict` call on a fresh policy with
`window = corr_window = 4` and `std_dev_multiplier = -2`, observing price
`4` / liquidity `1` (each appended twice by the duplicated block). -/
def s9 : PolicyState :=
  { pool := "P", window := 4, std_dev_multiplier := -2, corr_window := 4,
    direction := 0, price_window := [4, 4], price_hist := [4, 4],
    liquidity := [1, 1], upper_band := [], lower_band := [],
    correlation_hist := [] }

def s9a : PolicyState :=
  { pool := "P", window := 4, std_dev_multiplier := -2, corr_window := 4,
    direction := 0, price_window := [4, 4, 0], price_hist := [4, 4, 0],
    liquidity := [1, 1, 5], upper_band := [], lower_band := [],
    correlation_hist := [] }

def s9b : PolicyState :=
  { pool := "P", window := 4, std_dev_multiplier := -2, corr_window := 4,
    direction := 0, price_window := [4, 4, 0, 0], price_hist := [4, 4, 0, 0],
    liquidity := [1, 1, 5, 5], upper_band := [], lower_band := [],
    correlation_hist := [] }

def s9c : PolicyState :=
  { pool := "P", window := 4, std_dev_multiplier := -2, corr_window := 4,
    direction := 0, price_window := [4, 4, 0, 0], price_hist := [4, 4, 0, 0],
    liquidity := [1, 1, 5, 5], upper_band := [-2], lower_band := [6],
    correlation_hist := [] }

def s9d : PolicyState :=
  { pool := "P", window := 4, std_dev_multiplier := -2, corr_window := 4,
    direction := 0, price_window := [4, 4, 0, 0], price_hist := [4, 4, 0, 0],
    liquidity := [1, 1, 5, 5], upper_band := [-2], lower_band := [6],
    correlation_hist := [-1] }

lemma bb_s9b : calculate_bollinger_bands s9b = ((6, 2, -2), s9c) := by
  have hm : listMean s9b.price_window = 2 := mean_4400
  have hs : popStd s9b.price_window = 2 := std_4400
  simp only [calculate_bollinger_bands, calculate_sma]
  rw [if_neg (by decide), hm, hs]
  norm_num [s9b, s9c]

lemma corr_s9c : calculate_correlation s9c = (-1, s9d) := by
  have hsl1 : sliceLast s9c.corr_window s9c.price_hist = [(4 : ℝ), 4, 0, 0] := rfl
  have hsl2 : sliceLast s9c.corr_window s9c.liquidity = [(1 : ℝ), 1, 5, 5] := rfl
  simp only [calculate_correlation]
  rw [if_pos (by decide), if_pos (by decide), hsl1, hsl2, pearson_4400]
  norm_num [s9c, s9d]

lemma decisionStats_s9 : decisionStats s9 obsLow = ((6, 2, -2), -1, s9d) := by
  have h1 : stepStats s9 obsLow = ((0, 0, 0), 0, s9a) := rfl
  have hup : updateHistories s9a obsLow = s9b := rfl
  have h2 : stepStats s9a obsLow = ((6, 2, -2), -1, s9d) := by
    simp only [stepStats, hup, bb_s9b, corr_s9c]
  simp only [decisionStats, h1]
  exact h2

lemma s9_full : s9.window ≤ (decisionStats s9 obsLow).2.2.price_window.length := by
  rw [decisionStats_s9]
  decide

lemma s9_price_lt_lower : currentPrice s9 obsLow < (decisionStats s9 obsLow).1.1 := by
  rw [decisionStats_s9]
  show (0 : ℝ) < 6
  norm_num

lemma s9_upper_lt : (decisionStats s9 obsLow).1.2.2 < currentPrice s9 obsLow := by
  rw [decisionStats_s9]
  show (-2 : ℝ) < 0
  norm_num

lemma s9_corr_lt : (decisionStats s9 obsLow).2.1 < -0.5 := by
  rw [decisionStats_s9]
  show (-1 : ℝ) < -0.5
  norm_num

/-- C9: from a freshly constructed policy (window 4, multiplier `-2`,
direction both), two observations reach a state in which a single `predict`
call fires the long-entry and the short-entry rule simultaneously (the
negative multiplier puts the lower band above the upper band) and returns
two intents: a buy followed by a sell. -/
theorem both_rules_can_fire :
    (predict (predict (initPolicy "P" 4 (-2) 4 0) agent10 obsHigh4).1
        agent10 obsLow).2
      = [{ agent := agent10, pool := "P",
           quantities := (0, agent10.quantity "T1" * 0.3) },
         { agent := agent10, pool := "P",
           quantities := (agent10.quantity "T0" * 0.3, 0) }] := by
  have h1 : (predict (initPolicy "P" 4 (-2) 4 0) agent10 obsHigh4).1 = s9 := rfl
  rw [h1, predict_eq_of_full s9 agent10 obsLow s9_full,
      if_pos ⟨by decide, s9_price_lt_lower, s9_corr_lt⟩,
      if_pos ⟨by decide, s9_upper_lt, s9_corr_lt⟩]
  simp [s9, obsLow]

/-! ### The recorded liquidity source (C10) -/

/-- C10: on every call, `predict` appends (twice, by the duplicated
block) the liquidity of the first pool of the observation's pool list
(`obs.pools[0]`), while the price it appends is that of the configured pool
`self.pool`; so the recorded liquidity corresponds to the configured pool
only when that pool is first in `obs.pools`. -/
theorem liquidity_from_first_pool (s : PolicyState) (agent : Agent)
    (obs : Observation) :
    (predict s agent obs).1.liquidity
      = s.liquidity
        ++ [obs.liquidity obs.pools.headI, obs.liquidity obs.pools.headI] ∧
    (predict s agent obs).1.price_hist
      = s.price_hist ++ [currentPrice s obs, currentPrice s obs] :=
  ⟨predict_liquidity s agent obs, predict_price_hist s agent obs⟩

/-! ### The duplicated update block (C1, C2) -/

/-- C2 is violated by the code: every call to `predict` appends exactly
TWO elements (not one) to `price_hist` and to `liquidity`, and lengthens the
bounded window by two (up to the cap): the textually duplicated statistics
block repeats the `Update` side effect. -/
theorem update_twice_per_call (s : PolicyState) (agent : Agent)
    (obs : Observation) :
    (predict s agent obs).1.price_hist.length = s.price_hist.length + 2 ∧
    (predict s agent obs).1.liquidity.length = s.liquidity.length + 2 ∧
    (predict s agent obs).1.price_window.length
      = min (s.price_window.length + 2) s.window := by
  refine ⟨?_, ?_, predict_price_window_length s agent obs⟩
  · rw [predict_price_hist]
    simp
  · rw [predict_liquidity]
    simp

/-- Observation with price `10` and liquidity `10`. -/
def obsTen : Observation :=
  { pools := ["P"]
    poolTokens := fun _ => ("T0", "T1")
    price := fun _ _ _ => 10
    liquidity := fun _ => 10 }

/-- Observation with price `0` and liquidity `20`. -/
def obsDrop : Observation :=
  { pools := ["P"]
    poolTokens := fun _ => ("T0", "T1")
    price := fun _ _ _ => 0
    liquidity := fun _ => 20 }

def tens18 : List ℝ :=
  [10, 10, 10, 10, 10, 10, 10, 10, 10, 10, 10, 10, 10, 10, 10, 10, 10, 10]

/-- The state of a `window = corr_window = 20` policy after nine `predict`
calls observing price `10` / liquidity `10`: eighteen entries everywhere. -/
def warm9State : PolicyState :=
  { pool := "P", window := 20, std_dev_multiplier := 2, corr_window := 20,
    direction := 0, price_window := tens18, price_hist := tens18,
    liquidity := tens18, upper_band := [], lower_band := [],
    correlation_hist := [] }

def warm9a : PolicyState :=
  { pool := "P", window := 20, std_dev_multiplier := 2, corr_window := 20,
    direction := 0, price_window := tens18 ++ [0], price_hist := tens18 ++ [0],
    liquidity := tens18 ++ [20], upper_band := [], lower_band := [],
    correlation_hist := [] }

def warm9b : PolicyState :=
  { pool := "P", window := 20, std_dev_multiplier := 2, corr_window := 20,
    direction := 0, price_window := tens18 ++ [0, 0],
    price_hist := tens18 ++ [0, 0], liquidity := tens18 ++ [20, 20],
    upper_band := [], lower_band := [], correlation_hist := [] }

def warm9c : PolicyState :=
  { pool := "P", window := 20, std_dev_multiplier := 2, corr_window := 20,
    direction := 0, price_window := tens18 ++ [0, 0],
    price_hist := tens18 ++ [0, 0], liquidity := tens18 ++ [20, 20],
    upper_band := [15], lower_band := [3], correlation_hist := [] }

def warm9d : PolicyState :=
  { pool := "P", window := 20, std_dev_multiplier := 2, corr_window := 20,
    direction := 0, price_window := tens18 ++ [0, 0],
    price_hist := tens18 ++ [0, 0], liquidity := tens18 ++ [20, 20],
    upper_band := [15], lower_band := [3], correlation_hist := [-1] }

lemma mean_w20 : listMean (tens18 ++ [(0 : ℝ), 0]) = 9 := by
  norm_num [tens18, listMean]

lemma mean_w20y : listMean (tens18 ++ [(20 : ℝ), 20]) = 11 := by
  norm_num [tens18, listMean]

lemma var_w20 : popVariance (tens18 ++ [(0 : ℝ), 0]) = 9 := by
  rw [popVariance, mean_w20]
  norm_num [tens18]

lemma std_w20 : popStd (tens18 ++ [(0 : ℝ), 0]) = 3 := by
  rw [popStd, var_w20, show (9 : ℝ) = 3 ^ 2 by norm_num,
      Real.sqrt_sq (by norm_num : (0 : ℝ) ≤ 3)]

lemma pearson_w20 :
    pearson (tens18 ++ [(0 : ℝ), 0]) (tens18 ++ [(20 : ℝ), 20]) = -1 := by
  have hxy : dot (demean (tens18 ++ [(0 : ℝ), 0]))
      (demean (tens18 ++ [(20 : ℝ), 20])) = -180 := by
    simp only [demean]
    rw [mean_w20, mean_w20y]
    norm_num [dot, tens18]
  have hxx : dot (demean (tens18 ++ [(0 : ℝ), 0]))
      (demean (tens18 ++ [(0 : ℝ), 0])) = 180 := by
    simp only [demean]
    rw [mean_w20]
    norm_num [dot, tens18]
  have hyy : dot (demean (tens18 ++ [(20 : ℝ), 20]))
      (demean (tens18 ++ [(20 : ℝ), 20])) = 180 := by
    simp only [demean]
    rw [mean_w20y]
    norm_num [dot, tens18]
  rw [pearson, hxy, hxx, hyy, show (180 : ℝ) * 180 = 180 ^ 2 by norm_num,
      Real.sqrt_sq (by norm_num : (0 : ℝ) ≤ 180)]
  norm_num

lemma bb_warm9b : calculate_bollinger_bands warm9b = ((3, 9, 15), warm9c) := by
  have hm : listMean warm9b.price_window = 9 := mean_w20
  have hs : popStd warm9b.price_window = 3 := std_w20
  simp only [calculate_bollinger_bands, calculate_sma]
  rw [if_neg (by decide), hm, hs]
  norm_num [warm9b, warm9c]

lemma corr_warm9c : calculate_correlation warm9c = (-1, warm9d) := by
  have hsl1 : sliceLast warm9c.corr_window warm9c.price_hist
      = tens18 ++ [(0 : ℝ), 0] := rfl
  have hsl2 : sliceLast warm9c.corr_window warm9c.liquidity
      = tens18 ++ [(20 : ℝ), 20] := rfl
  simp only [calculate_correlation]
  rw [if_pos (by decide), if_pos (by decide), hsl1, hsl2, pearson_w20]
  norm_num [warm9c, warm9d]

lemma decisionStats_warm9 :
    decisionStats warm9State obsDrop = ((3, 9, 15), -1, warm9d) := by
  have h1 : stepStats warm9State obsDrop = ((0, 0, 0), 0, warm9a) := rfl
  have hup : updateHistories warm9a obsDrop = warm9b := rfl
  have h2 : stepStats warm9a obsDrop = ((3, 9, 15), -1, warm9d) := by
    simp only [stepStats, hup, bb_warm9b, corr_warm9c]
  simp only [decisionStats, h1]
  exact h2

lemma warm9_full :
    warm9State.window ≤ (decisionStats warm9State obsDrop).2.2.price_window.length := by
  rw [decisionStats_warm9]
  decide

lemma warm9_lt_lower :
    currentPrice warm9State obsDrop < (decisionStats warm9State obsDrop).1.1 := by
  rw [decisionStats_warm9]
  show (0 : ℝ) < 3
  norm_num

lemma warm9_corr : (decisionStats warm9State obsDrop).2.1 < -0.5 := by
  rw [decisionStats_warm9]
  show (-1 : ℝ) < -0.5
  norm_num

lemma warm9_not_upper :
    ¬ ((decisionStats warm9State obsDrop).1.2.2 < currentPrice warm9State obsDrop) := by
  rw [decisionStats_warm9]
  show ¬ ((15 : ℝ) < 0)
  norm_num

set_option maxRecDepth 100000 in
/-- C1 is violated by the code: with `window = 20`, the duplicated
update block appends each observed price twice, so the bounded window is
already full at the 10th call from a fresh policy, and that 10th call — well
inside the claimed 19-call warm-up — returns a (nonempty) buy intent. -/
theorem tenth_call_trades_window20 :
    (predict (runPolicy (initPolicy "P" 20 2 20 0) agent10
        (List.replicate 9 obsTen)) agent10 obsDrop).2
      = [{ agent := agent10, pool := "P",
           quantities := (0, agent10.quantity "T1" * 0.3) }] := by
  have hrun : runPolicy (initPolicy "P" 20 2 20 0) agent10
      (List.replicate 9 obsTen) = warm9State := rfl
  rw [hrun, predict_eq_of_full warm9State agent10 obsDrop warm9_full,
      if_pos ⟨by decide, warm9_lt_lower, warm9_corr⟩,
      if_neg (fun hcon => warm9_not_upper hcon.2.1)]
  simp [warm9State, obsDrop]

end

end BollingerPolicy
